import Mathlib

/-!
Verification of the multi-source bibliographic metadata resolution engine
(the book-note scripts' API-client and resolution logic).

The Python code is shallowly embedded: dictionaries produced by the source
adapters become a fixed-shape record (`Cand`), Python `None` becomes
`Option.none`, Python truthiness becomes explicit `truthy*` tests, and
Python exceptions (AttributeError / IndexError / TypeError) become an
explicit `Except PyErr` result.  Filesystem existence checks and the
network download are external collaborators and are passed in as explicit
parameters (`fsExists : String → Bool`, `dlOk : Bool`).
All string handling models the ASCII fragment the scripts actually use.
-/

/-- Python exception kinds that the embedded code can raise. -/
inductive PyErr where
  | attributeError
  | indexError
  | typeError
deriving DecidableEq

deriving instance DecidableEq for Except

/-- ASCII whitespace, the characters Python's `str.strip()` removes
(restricted to the ASCII range used by the scripts). -/
def isWsChar (c : Char) : Bool :=
  c = ' ' || c = '\t' || c = '\n' || c = '\r' || c = '\x0b' || c = '\x0c'

/-- Python `str.strip()` on a character list: drop whitespace from both ends. -/
def pyStripL (l : List Char) : List Char :=
  ((l.dropWhile isWsChar).reverse.dropWhile isWsChar).reverse

/-- Python `str.strip()`. -/
def pyStrip (s : String) : String :=
  String.mk (pyStripL s.toList)

/-- Python `str.lower()` (ASCII fragment). -/
def pyLower (s : String) : String :=
  String.mk (s.toList.map Char.toLower)

/-- `leadsWith n h` is true iff the character list `h` begins with `n`. -/
def leadsWith : List Char → List Char → Bool
  | [], _ => true
  | _ :: _, [] => false
  | a :: as, b :: bs => a = b && leadsWith as bs

/-- Substring test on character lists: Python's `needle in hay`. -/
def isSubstrB (n : List Char) : List Char → Bool
  | [] => n.isEmpty
  | c :: t => leadsWith n (c :: t) || isSubstrB n t

/-- Python's `needle in hay` on strings. -/
def substrS (n h : String) : Bool :=
  isSubstrB n.toList h.toList

/-- Python truthiness of an optional string (`None` and `""` are falsy). -/
def truthyO (o : Option String) : Bool :=
  match o with
  | none => false
  | some s => !s.isEmpty

/-- Python truthiness of an optional integer (`None` and `0` are falsy). -/
def truthyI (o : Option Int) : Bool :=
  match o with
  | none => false
  | some n => n != 0

/-- Python truthiness of a list (empty lists are falsy). -/
def truthyL (l : List String) : Bool :=
  !l.isEmpty

/--
One raw candidate dictionary as built by the source adapters
(`_format_google_result` / `_search_open_library`).  Every key listed here
is always present in the dictionaries the adapters construct, so
`Option.none` models a stored Python `None`, never an absent key.
-/
structure Cand where
  title : Option String := none
  subtitle : Option String := none
  authors : List String := []
  publisher : Option String := none
  publishedDate : Option String := none
  pageCount : Option Int := none
  categories : List String := []
  isbn : Option String := none
  coverUrl : Option String := none
  source : Option String := none
deriving DecidableEq

/-!
## Deduplication (create-book-notes.py, `search_books_by_title_author` lines 87-100)

```python
isbn_key = result.get('isbn', '').replace(',', '').replace(' ', '')
title_key = f"{result.get('title', '').lower().strip()}_{result.get('authors', [''])[0].lower().strip()}"
key = isbn_key if isbn_key else title_key
if key and key not in seen:
    seen.add(key)
    unique_results.append(result)
```

Since the adapters always put the `isbn`, `title` and `authors` keys in the
dictionary, `dict.get` returns the stored value (possibly `None`), not the
default; `.replace` / `.lower` on `None` raises `AttributeError`, and
`[''][0]`-style defaulting never fires for a present-but-empty list, where
`[0]` raises `IndexError`.
-/

/-- Characters removed from the ISBN by `.replace(',','').replace(' ','')`. -/
def stripCommaSpace (s : String) : String :=
  String.mk (s.toList.filter (fun ch => ch ≠ ',' && ch ≠ ' '))

/-- The ISBN half of the dedup key; raises `AttributeError` when the stored
ISBN is Python `None` (`result.get('isbn','')` returns the stored `None`). -/
def isbnKeyE (c : Cand) : Except PyErr String :=
  match c.isbn with
  | none => .error .attributeError
  | some s => .ok (stripCommaSpace s)

/-- The title+first-author fallback half of the dedup key; raises
`AttributeError` on a `None` title and `IndexError` on an empty authors
list (the `[''] ` default in `result.get('authors', [''])` applies only
when the key is absent, which the adapters never produce). -/
def titleKeyE (c : Cand) : Except PyErr String :=
  match c.title with
  | none => .error .attributeError
  | some t =>
    match c.authors with
    | [] => .error .indexError
    | a :: _ => .ok (pyLower (pyStrip t) ++ "_" ++ pyLower (pyStrip a))

/-- The dedup key: both halves are computed eagerly (so either can raise),
then the ISBN key wins when non-empty. -/
def dedupKeyE (c : Cand) : Except PyErr String := do
  let ik ← isbnKeyE c
  let tk ← titleKeyE c
  pure (if ik ≠ "" then ik else tk)

/-- The dedup loop with its `seen` set, first-seen-wins. -/
def dedupAux : List Cand → List String → Except PyErr (List Cand)
  | [], _ => .ok []
  | c :: cs, seen => do
    let k ← dedupKeyE c
    if k ≠ "" && !(seen.contains k) then
      let rest ← dedupAux cs (k :: seen)
      pure (c :: rest)
    else
      dedupAux cs seen

/-- Deduplicate a raw candidate list (create-book-notes.py lines 87-100). -/
def dedup (l : List Cand) : Except PyErr (List Cand) :=
  dedupAux l []

/-!
## Relevance ranking (create-book-notes.py, lines 102-132)

```python
def relevance_score(book):
    score = 0
    book_title = book.get('title', '').lower()
    search_title = title.lower()
    if book_title == search_title: score += 100
    elif search_title in book_title or book_title in search_title: score += 50
    if author:
        book_authors = [a.lower() for a in book.get('authors', [])]
        if any(author.lower() in ba or ba in author.lower() for ba in book_authors):
            score += 30
    pub_date = book.get('publishedDate', '')
    if pub_date:
        try:
            year = int(re.findall(r'\d{4}', pub_date)[0])
            score += min(year - 1900, 25)
        except Exception: pass
    return score

unique_results.sort(key=relevance_score, reverse=True)
return unique_results[:5]
```
-/

/-- Numeric value of four digit characters. -/
def fourDigitsVal (a b c d : Char) : Nat :=
  a.toNat * 1000 + b.toNat * 100 + c.toNat * 10 + d.toNat - 53328

/-- Leftmost run of four consecutive digits, as `re.findall(r'\d{4}', s)[0]`
finds it (ASCII digits). -/
def firstFourDigits : List Char → Option Nat
  | a :: b :: c :: d :: rest =>
    if a.isDigit && b.isDigit && c.isDigit && d.isDigit then
      some (fourDigitsVal a b c d)
    else
      firstFourDigits (b :: c :: d :: rest)
  | _ => none

/-- `extractedYear`: the first 4-digit run in a date string, if any. -/
def extractYear (s : String) : Option Nat :=
  firstFourDigits s.toList

/-- The publication-date term of the relevance score: `min(year - 1900, 25)`
for the first 4-digit run, 0 when the date is falsy or has no 4-digit run. -/
def yearTerm (pd : Option String) : Int :=
  match pd with
  | none => 0
  | some s =>
    if s.isEmpty then 0
    else
      match extractYear s with
      | none => 0
      | some y => min ((y : Int) - 1900) 25

/-- The `+30` author bonus: query author truthy and some candidate author
(lowercased) contains or is contained in the lowercased query author. -/
def authorBonus (qauthor : String) (c : Cand) : Int :=
  if !qauthor.isEmpty &&
      c.authors.any (fun a =>
        substrS (pyLower qauthor) (pyLower a) || substrS (pyLower a) (pyLower qauthor)) then
    30
  else
    0

/-- The title term: +100 for case-insensitive equality, else +50 for
substring containment in either direction, else 0. -/
def titleTerm (qtitle : String) (bt : String) : Int :=
  if pyLower bt = pyLower qtitle then 100
  else if substrS (pyLower qtitle) (pyLower bt) || substrS (pyLower bt) (pyLower qtitle) then 50
  else 0

/-- `relevance_score` as the Python code computes it, raising
`AttributeError` when the candidate's stored title is `None`
(`book.get('title','').lower()` on a stored `None`). -/
def relevanceScoreE (qtitle qauthor : String) (c : Cand) : Except PyErr Int :=
  match c.title with
  | none => .error .attributeError
  | some bt => .ok (titleTerm qtitle bt + authorBonus qauthor c + yearTerm c.publishedDate)

/-- Total variant of the score used as the sort key; it agrees with
`relevanceScoreE` whenever the latter does not raise. -/
def scoreVal (qtitle qauthor : String) (c : Cand) : Int :=
  titleTerm qtitle (c.title.getD "") + authorBonus qauthor c + yearTerm c.publishedDate

/-- Insert `x` into `l` before the first element whose key is `≤ key x`:
one step of a stable descending sort. -/
def insD (key : Cand → Int) (x : Cand) : List Cand → List Cand
  | [] => [x]
  | y :: ys => if key y ≤ key x then x :: y :: ys else y :: insD key x ys

/-- Stable descending sort by `key`: the extensional behaviour of Python's
`list.sort(key=key, reverse=True)` (stable, descending, no secondary key). -/
def sortD (key : Cand → Int) (l : List Cand) : List Cand :=
  l.foldr (insD key) []

/-- `search_books_by_title_author`'s ranking stage: sort the deduplicated
list by descending relevance score (stably) and keep the first five.
Python's sort computes the key of every element, so a candidate with a
`None` title raises before any reordering happens. -/
def rankE (qtitle qauthor : String) (l : List Cand) : Except PyErr (List Cand) :=
  if l.all (fun c => c.title.isSome) then
    .ok ((sortD (scoreVal qtitle qauthor) l).take 5)
  else
    .error .attributeError

/-!
## The ranking score as the specification states it (spec section 4.4)

`specScore` is written from the spec's words, to be compared with the
code-derived `relevanceScoreE`/`scoreVal`:
- +100 if `lowercase(candidate.title) == lowercase(title)` exactly,
- else +50 if either string contains the other,
- +30 if `author` is non-empty and any candidate author case-insensitively
  contains, or is contained by, `author`,
- plus `min(extractedYear - 1900, 25)` from the first 4-digit run in
  `publishedDate`, contributing 0 if no year is parseable.
-/

/-- The reference score of spec section 4.4, written from the spec text. -/
def specScore (qtitle qauthor : String) (c : Cand) : Int :=
  let ct := pyLower (c.title.getD "")
  let qt := pyLower qtitle
  (if ct = qt then 100
   else if substrS qt ct || substrS ct qt then 50
   else 0)
  + (if !qauthor.isEmpty &&
        c.authors.any (fun a =>
          substrS (pyLower qauthor) (pyLower a) || substrS (pyLower a) (pyLower qauthor)) then
      30
     else 0)
  + (match c.publishedDate with
     | none => 0
     | some s =>
       if s.isEmpty then 0
       else
         match extractYear s with
         | none => 0
         | some y => min ((y : Int) - 1900) 25)

/-!
## Google-adapter ISBN mapping
(create-book-notes.py `_format_google_result` lines 197-212, identical in
clean-book-notes.py `_search_google_books` lines 218-233)

```python
for identifier in identifiers:
    if identifier['type'] == 'ISBN_10': isbn_10 = identifier['identifier']
    elif identifier['type'] == 'ISBN_13': isbn_13 = identifier['identifier']
if isbn_10 and isbn_13: result['isbn'] = f"{isbn_10}, {isbn_13}"
elif isbn_13: result['isbn'] = isbn_13
elif isbn_10: result['isbn'] = isbn_10
```
-/

/-- Scan the `industryIdentifiers` (type, identifier) pairs in order; the
last occurrence of each type wins, other types are ignored. -/
def extractIsbns (ids : List (String × String)) : Option String × Option String :=
  ids.foldl
    (fun acc p =>
      if p.1 = "ISBN_10" then (some p.2, acc.2)
      else if p.1 = "ISBN_13" then (acc.1, some p.2)
      else acc)
    (none, none)

/-- Join the collected ISBN variants exactly as the adapter does. -/
def joinIsbns (i10 i13 : Option String) : Option String :=
  if truthyO i10 && truthyO i13 then some (i10.getD "" ++ ", " ++ i13.getD "")
  else if truthyO i13 then i13
  else if truthyO i10 then i10
  else none

/-- The `isbn` field the Google adapter stores for a volume's
`industryIdentifiers` list. -/
def googleIsbn (ids : List (String × String)) : Option String :=
  joinIsbns (extractIsbns ids).1 (extractIsbns ids).2

/-!
## Fan-out (create-book-notes.py lines 25-85)

`search_multiple_sources` (lines 25-55) submits the Google and Open Library
tasks to a thread pool and appends results in `as_completed` order, i.e. in
completion order.  The adapter responses are fixed inputs here; the
completion order is the remaining free variable (`googleDone1st`).  A task
that raises or returns a falsy result contributes nothing (`none`).

`search_books_by_title_author` (lines 63-85) runs sequentially: for each of
the three search-term variants it extends the list with the Google
multi-result response for that term and then appends the Open Library
response.  Adapter responses are modelled as deterministic response
functions (`gmulti`, `ol`); a failed call is an empty/absent response.
-/

/-- Set `result['source'] = s` on a candidate. -/
def tagSource (s : String) (c : Cand) : Cand :=
  { c with source := some s }

/-- `search_multiple_sources`: results are appended in completion order. -/
def searchMultipleSources (g o : Option Cand) (googleDone1st : Bool) : List Cand :=
  let gl := match g with | some c => [tagSource "google" c] | none => []
  let ol := match o with | some c => [tagSource "openlibrary" c] | none => []
  if googleDone1st then gl ++ ol else ol ++ gl

/-- The three query-term variants of `search_books_by_title_author`. -/
def searchTerms (title author : String) : List String :=
  [ pyStrip (title ++ " " ++ author),
    if !author.isEmpty then
      "intitle:\x22" ++ title ++ "\x22 inauthor:\x22" ++ author ++ "\x22"
    else
      "intitle:\x22" ++ title ++ "\x22",
    title ]

/-- The Open Library result with its source tag, as a list. -/
def olTagged (ol : Option Cand) : List Cand :=
  match ol with
  | some c => [tagSource "openlibrary" c]
  | none => []

/-- The raw candidate list accumulated by `search_books_by_title_author`
(lines 63-85) before deduplication: a sequential loop over the search-term
variants, Google results first, then the Open Library result, per variant. -/
def rawResults (title author : String) (gmulti : String → List Cand)
    (ol : Option Cand) : List Cand :=
  (searchTerms title author).foldl (fun acc t => acc ++ gmulti t ++ olTagged ol) []

/-- The dispatcher order as spec section 4.2 describes it: results appended
in the fixed priority order of (variant, adapter) pairs, written from the
spec's words as an explicit concatenation. -/
def specOrderedResults (title author : String) (gmulti : String → List Cand)
    (ol : Option Cand) : List Cand :=
  match searchTerms title author with
  | [t1, t2, t3] =>
    gmulti t1 ++ olTagged ol ++ gmulti t2 ++ olTagged ol ++ gmulti t3 ++ olTagged ol
  | _ => []

/-!
## The existing document and the backfill delta (clean-book-notes.py)

`BookNote` (lines 12-30) holds the parsed frontmatter of an existing note.
`BookNotesCleaner.run` (lines 451-513) builds the `updates` dictionary (the
backfill delta) from the note and the fetched API data.  Filesystem
existence is the external collaborator `fsExists`, applied to the
cover-file name for the covers-directory check and to the stored
`localCover` relative path for the missing-fields check (the constant
directory roots are absorbed into the oracle).  `dlOk` is the result of
`download_cover`.
-/

/-- The parsed frontmatter of an existing book note (clean-book-notes.py
`BookNote`, lines 12-30). -/
structure Note where
  title : Option String := none
  subtitle : Option String := none
  author : List String := []
  category : List String := []
  publisher : Option String := none
  publish : Option String := none
  total : Option Int := none
  isbn : Option String := none
  cover : Option String := none
  localCover : Option String := none
deriving DecidableEq

/-- The backfill delta: `some v` means the field is in the `updates`
dictionary with value `v`; `none` means it is absent. -/
structure Updates where
  title : Option String := none
  subtitle : Option String := none
  author : Option (List String) := none
  category : Option (List String) := none
  publisher : Option String := none
  publish : Option String := none
  total : Option Int := none
  isbn : Option String := none
  cover : Option String := none
  localCover : Option String := none
deriving DecidableEq

/-- The empty delta. -/
def emptyUpdates : Updates := {}

/-- `re.sub(r'[^\w\s-]', '', s)`: keep word characters, whitespace and
hyphens (ASCII fragment). -/
def cleanName (s : String) : String :=
  String.mk (s.toList.filter (fun c => c.isAlphanum || c = '_' || isWsChar c || c = '-'))

/-- Strip the Obsidian `[[` / `]]` link brackets from an author name. -/
def stripBrackets (s : String) : String :=
  String.mk (s.toList.filter (fun c => c ≠ '[' && c ≠ ']'))

/-- `BookNote.get_missing_fields` (lines 86-113): names of absent, empty or
invalid fields; the local-cover path is additionally checked for existence
on disk via the collaborator `fsExists`. -/
def getMissingFields (b : Note) (fsExists : String → Bool) : List String :=
  (if !truthyO b.title then ["title"] else [])
  ++ (if b.author.isEmpty then ["author"] else [])
  ++ (if !truthyO b.isbn then ["ISBN"] else [])
  ++ (if !truthyO b.publisher then ["publisher"] else [])
  ++ (if !truthyO b.publish then ["publish date"] else [])
  ++ (if !truthyI b.total then ["page count"] else [])
  ++ (if !truthyO b.cover then ["cover URL"] else [])
  ++ (if !truthyO b.localCover then ["local cover path"]
      else if !fsExists (b.localCover.getD "") then
        ["local cover file (path exists but file missing)"]
      else [])

/-- The title used for the cover file name:
`book.title or api_data.get('title', 'Unknown')`.  When the note title is
falsy the stored API title is used even if it is Python `None`, in which
case `re.sub` raises `TypeError`. -/
def coverTitleArg (b : Note) (api : Cand) : Except PyErr String :=
  if truthyO b.title then .ok (b.title.getD "")
  else
    match api.title with
    | none => .error .typeError
    | some t => .ok t

/-- The cover file name of `BookNotesCleaner.run` lines 483-498:
`"{author_clean} - {title_clean}[ - {date_clean}].jpg"`, segments dropped
when the author or date is unavailable. -/
def coverFilename (b : Note) (api : Cand) : Except PyErr String := do
  let t ← coverTitleArg b api
  let titleClean := cleanName t
  let authorClean :=
    if truthyL api.authors then cleanName (api.authors.headD "")
    else
      match b.author with
      | [] => ""
      | a :: _ => cleanName (stripBrackets a)
  let dateClean := api.publishedDate.getD ""
  if !authorClean.isEmpty && !dateClean.isEmpty then
    pure (authorClean ++ " - " ++ titleClean ++ " - " ++ dateClean ++ ".jpg")
  else if !authorClean.isEmpty then
    pure (authorClean ++ " - " ++ titleClean ++ ".jpg")
  else
    pure (titleClean ++ ".jpg")

/-- The attachment-root-relative path recorded in `localCover`. -/
def relCoverPath (filename : String) : String :=
  "References/Attachments/Book Search Covers/" ++ filename

/-- The `localCover` entry of the delta (lines 482-513): whenever the API
data has a cover URL, the computed relative path is recorded if the cover
file already exists or the download succeeds — without consulting the
existing document's `localCover` field. -/
def localCoverField (b : Note) (api : Cand) (fsExists : String → Bool)
    (dlOk : Bool) : Except PyErr (Option String) :=
  if truthyO api.coverUrl then do
    let fn ← coverFilename b api
    if !fsExists fn then
      if dlOk then pure (some (relCoverPath fn)) else pure none
    else
      pure (some (relCoverPath fn))
  else
    pure none

/-- One guarded backfill entry for an optional-string field: offered iff
the existing value is falsy and the candidate value is truthy. -/
def bfO (bv av : Option String) : Option String :=
  if !truthyO bv && truthyO av then av else none

/-- The guarded backfill entry for the page count. -/
def bfI (bv av : Option Int) : Option Int :=
  if !truthyI bv && truthyI av then av else none

/-- The guarded backfill entry for the author list: candidate authors are
wrapped as Obsidian links. -/
def bfAuthor (bl al : List String) : Option (List String) :=
  if bl.isEmpty && !al.isEmpty then some (al.map (fun a => "[[" ++ a ++ "]]"))
  else none

/-- The guarded backfill entry for the category list. -/
def bfCategory (bl al : List String) : Option (List String) :=
  if bl.isEmpty && !al.isEmpty then some al else none

/-- The backfill delta `updates` built by `BookNotesCleaner.run` lines
451-513.  All the plain fields are guarded by `not book.<field>`; the
`localCover` entry is not guarded by the existing value.  A `TypeError`
inside the cover-filename computation aborts the run before the delta is
applied, which the `Except` models. -/
def prepareUpdates (b : Note) (api : Cand) (fsExists : String → Bool)
    (dlOk : Bool) : Except PyErr Updates := do
  let lc ← localCoverField b api fsExists dlOk
  pure
    { title := bfO b.title api.title
      subtitle := bfO b.subtitle api.subtitle
      author := bfAuthor b.author api.authors
      publisher := bfO b.publisher api.publisher
      publish := bfO b.publish api.publishedDate
      total := bfI b.total api.pageCount
      isbn := bfO b.isbn api.isbn
      cover := bfO b.cover api.coverUrl
      category := bfCategory b.category api.categories
      localCover := lc }

/-- A delta entry overrides the existing value when present. -/
def ovr (uv bv : Option String) : Option String :=
  match uv with
  | some v => some v
  | none => bv

/-- Apply a delta to the document record: every field present in the delta
replaces the existing field (`update_and_save` sets
`frontmatter[key] = value` for every non-`None` update value and the
caller persists it). -/
def applyUpdates (b : Note) (u : Updates) : Note :=
  { title := ovr u.title b.title
    subtitle := ovr u.subtitle b.subtitle
    author := (u.author).getD b.author
    category := (u.category).getD b.category
    publisher := ovr u.publisher b.publisher
    publish := ovr u.publish b.publish
    total := match u.total with | some v => some v | none => b.total
    isbn := ovr u.isbn b.isbn
    cover := ovr u.cover b.cover
    localCover := ovr u.localCover b.localCover }

/-!
## Cover acquisition

Two code paths acquire a cover for a target path; both are modelled as a
pure function returning `(success, number of network fetch calls)`:

* clean-book-notes.py `BookNotesCleaner.run` lines 500-513: checks whether
  the target file exists first and only downloads when it does not
  (success of the acquisition = the `localCover` update is recorded);
* create-book-notes.py `BookNoteCreator.create_book_note` lines 411-423:
  whenever the candidate has a cover URL it downloads unconditionally —
  there is no existence check on the target path, whose state is therefore
  an ignored argument of the model.
-/

/-- The cleaner's cover acquisition for a target path: existing file means
immediate success with zero fetches, otherwise one fetch whose result
decides success. -/
def cleanerAcquire (targetExists : Bool) (dlOk : Bool) : Bool × Nat :=
  if targetExists then (true, 0) else (dlOk, 1)

/-- The creator's cover acquisition: one unconditional fetch whenever a
cover URL is present.  `targetExists` is deliberately unused: the code has
no existence check before downloading. -/
def creatorAcquire (coverUrl : Option String) (targetExists : Bool)
    (dlOk : Bool) : Bool × Nat :=
  if truthyO coverUrl then (dlOk, 1) else (true, 0)

/-!
## `BookNote.update_and_save` (clean-book-notes.py lines 115-153)

```python
content = f.read()
if not content.startswith('---'): return False
end_index = content.index('---', 3)        # ValueError when absent
frontmatter_text = content[3:end_index]
body = content[end_index+3:]
frontmatter = yaml.safe_load(frontmatter_text) or {}   # can raise YAMLError
... apply updates ...
new_content = "---\n" + yaml.dump(...) + "---" + body
f.write(new_content)
return True
except Exception: return False
```

The YAML library is an external collaborator: `parse` models
`yaml.safe_load` (with `Except.error` for a raised `YAMLError`), and
`render` models applying the updates dictionary and `yaml.dump`, which
cannot fail before the write.  The file's on-disk state is the second
component of the result: the only write the function performs is the final
one, so every failure path returns the content unchanged.
-/

/-- Position of the first `---` at or after character index 3
(`content.index('---', 3)`), `none` when absent (Python raises
`ValueError`, caught by the function's `except`). -/
def idxTripleDash (content : String) : Option Nat :=
  (findTriple (content.toList.drop 3)).map (· + 3)
where
  findTriple : List Char → Option Nat
    | [] => none
    | c :: cs =>
      if leadsWith ['-', '-', '-'] (c :: cs) then some 0
      else (findTriple cs).map (· + 1)

/-- `content[3:i]`, the frontmatter text. -/
def fmSlice (content : String) (i : Nat) : String :=
  String.mk ((content.toList.drop 3).take (i - 3))

/-- `content[i+3:]`, the body after the closing `---`. -/
def bodySlice (content : String) (i : Nat) : String :=
  String.mk (content.toList.drop (i + 3))

/-- `BookNote.update_and_save`: returns `(success, file content on disk
after the call)`. -/
def updateAndSave {α : Type} (parse : String → Except Unit α)
    (render : α → String) (content : String) : Bool × String :=
  if !leadsWith "---".toList content.toList then (false, content)
  else
    match idxTripleDash content with
    | none => (false, content)
    | some i =>
      match parse (fmSlice content i) with
      | .error _ => (false, content)
      | .ok fm => (true, "---\n" ++ render fm ++ "---" ++ bodySlice content i)

/-!
## Helper lemmas
-/

theorem insD_length (key : Cand → Int) (x : Cand) (l : List Cand) :
    (insD key x l).length = l.length + 1 := by
  induction l with
  | nil => rfl
  | cons y ys ih =>
    simp only [insD]
    split
    · simp
    · simp [ih]

theorem mem_insD (key : Cand → Int) (x z : Cand) :
    ∀ l : List Cand, z ∈ insD key x l → z = x ∨ z ∈ l := by
  intro l
  induction l with
  | nil => intro h; simpa [insD] using h
  | cons y ys ih =>
    intro h
    by_cases hc : key y ≤ key x
    · simp only [insD, if_pos hc] at h
      rcases List.mem_cons.mp h with h | h
      · exact Or.inl h
      · exact Or.inr h
    · simp only [insD, if_neg hc] at h
      rcases List.mem_cons.mp h with h | h
      · exact Or.inr (by simp [h])
      · rcases ih h with h | h
        · exact Or.inl h
        · exact Or.inr (by simp [h])

theorem pairwise_insD (key : Cand → Int) (x : Cand) (l : List Cand)
    (h : l.Pairwise (fun a b => key b ≤ key a)) :
    (insD key x l).Pairwise (fun a b => key b ≤ key a) := by
  induction l with
  | nil => simp [insD]
  | cons y ys ih =>
    rcases List.pairwise_cons.mp h with ⟨h1, h2⟩
    simp only [insD]
    split
    · rename_i hyx
      refine List.pairwise_cons.mpr ⟨?_, h⟩
      intro z hz
      rcases List.mem_cons.mp hz with rfl | hz
      · exact hyx
      · exact le_trans (h1 z hz) hyx
    · rename_i hyx
      refine List.pairwise_cons.mpr ⟨?_, ih h2⟩
      intro z hz
      rcases mem_insD key x z _ hz with rfl | hz
      · exact le_of_lt (lt_of_not_le hyx)
      · exact h1 z hz

theorem sortD_pairwise (key : Cand → Int) (l : List Cand) :
    (sortD key l).Pairwise (fun a b => key b ≤ key a) := by
  induction l with
  | nil => simp [sortD]
  | cons x xs ih =>
    simp only [sortD] at ih ⊢
    exact pairwise_insD key x _ ih

theorem filter_insD_eq (key : Cand → Int) (k : Int) (x : Cand) (hx : key x = k) :
    ∀ l : List Cand,
      (insD key x l).filter (fun c => key c == k) = x :: l.filter (fun c => key c == k) := by
  intro l
  induction l with
  | nil => simp [insD, hx]
  | cons y ys ih =>
    by_cases hc : key y ≤ key x
    · simp only [insD, if_pos hc]
      simp [hx]
    · have hyk : (key y == k) = false := by
        have : key y ≠ k := by
          intro hyk
          exact hc (by rw [hyk, ← hx])
        simpa using this
      simp only [insD, if_neg hc, List.filter_cons, hyk]
      simpa [hyk] using ih

theorem filter_insD_ne (key : Cand → Int) (k : Int) (x : Cand) (hx : key x ≠ k) :
    ∀ l : List Cand,
      (insD key x l).filter (fun c => key c == k) = l.filter (fun c => key c == k) := by
  intro l
  have hxk : (key x == k) = false := by simpa using hx
  induction l with
  | nil => simp [insD, hxk]
  | cons y ys ih =>
    by_cases hc : key y ≤ key x
    · simp only [insD, if_pos hc]
      simp [hxk]
    · simp only [insD, if_neg hc, List.filter_cons]
      rw [ih]

theorem sortD_filter_eq (key : Cand → Int) (k : Int) (l : List Cand) :
    (sortD key l).filter (fun c => key c == k) = l.filter (fun c => key c == k) := by
  induction l with
  | nil => simp [sortD]
  | cons x xs ih =>
    simp only [sortD] at ih ⊢
    rw [List.foldr_cons]
    by_cases hx : key x = k
    · rw [filter_insD_eq key k x hx, ih, List.filter_cons]
      simp [hx]
    · rw [filter_insD_ne key k x hx, ih, List.filter_cons]
      have hxk : (key x == k) = false := by simpa using hx
      simp [hxk]

theorem filter_take_ex {α : Type} (p : α → Bool) :
    ∀ (l : List α) (n : Nat), ∃ m, (l.take n).filter p = (l.filter p).take m := by
  intro l
  induction l with
  | nil => intro n; exact ⟨0, by simp⟩
  | cons x t ih =>
    intro n
    cases n with
    | zero => exact ⟨0, by simp⟩
    | succ n =>
      rcases ih n with ⟨m, hm⟩
      by_cases hx : p x = true
      · exact ⟨m + 1, by simp [List.filter_cons, hx, hm]⟩
      · have hx' : p x = false := by simpa using hx
        exact ⟨m, by simp [List.filter_cons, hx', hm]⟩

theorem dedupAux_key_not_seen {k : String} :
    ∀ (l : List Cand) (seen : List String) (out : List Cand),
      k ∈ seen → dedupAux l seen = .ok out → ∀ c ∈ out, dedupKeyE c ≠ .ok k := by
  intro l
  induction l with
  | nil =>
    intro seen out _ h c hc
    simp only [dedupAux] at h
    cases h
    simp at hc
  | cons c0 cs ih =>
    intro seen out hk h c hc
    simp only [dedupAux] at h
    cases hkey : dedupKeyE c0 with
    | error e =>
      rw [hkey] at h
      simp only [bind, Except.bind] at h
      exact Except.noConfusion h
    | ok k0 =>
      rw [hkey] at h
      simp only [bind, Except.bind] at h
      by_cases hcond : (decide (k0 ≠ "") && !(seen.contains k0)) = true
      · rw [if_pos hcond] at h
        cases hrest : dedupAux cs (k0 :: seen) with
        | error e => rw [hrest] at h; simp at h
        | ok rest =>
          rw [hrest] at h
          simp only [Except.bind, pure, Except.pure] at h
          cases h
          rcases List.mem_cons.mp hc with rfl | hc
          · have hk0 : k0 ∉ seen := by
              have hc2 := hcond
              simp only [Bool.and_eq_true] at hc2
              simpa using hc2.2
            intro habs
            rw [hkey] at habs
            cases habs
            exact hk0 hk
          · exact ih (k0 :: seen) rest (List.mem_cons_of_mem k0 hk) hrest c hc
      · rw [if_neg hcond] at h
        exact ih seen out hk h c hc

theorem scoreVal_eq_specScore (qt qa : String) (c : Cand) :
    scoreVal qt qa c = specScore qt qa c := by
  unfold scoreVal specScore titleTerm authorBonus yearTerm
  rfl

theorem relevanceScoreE_ok {c : Cand} (qt qa : String) {bt : String}
    (h : c.title = some bt) : relevanceScoreE qt qa c = .ok (scoreVal qt qa c) := by
  simp [relevanceScoreE, scoreVal, h]

theorem yearTerm_le_25 (pd : Option String) : yearTerm pd ≤ 25 := by
  cases pd with
  | none => simp [yearTerm]
  | some s =>
    simp only [yearTerm]
    by_cases hs : s.isEmpty = true
    · simp [hs]
    · rw [if_neg hs]
      cases hE : extractYear s with
      | none => norm_num
      | some y => simpa using min_le_right ((y : Int) - 1900) 25

theorem titleTerm_le_50_of_ne {qt bt : String} (h : pyLower bt ≠ pyLower qt) :
    titleTerm qt bt ≤ 50 := by
  unfold titleTerm
  rw [if_neg h]
  split <;> norm_num

theorem bfO_idem (bv av : Option String) : bfO (ovr (bfO bv av) bv) av = none := by
  unfold bfO ovr
  by_cases h : (!truthyO bv && truthyO av) = true
  · have hav : truthyO av = true := (Bool.and_eq_true _ _ ▸ h).2
    rw [if_pos h]
    cases av with
    | none => simp [truthyO] at hav
    | some s => simp [hav]
  · rw [if_neg h]
    simp [h]

theorem bfI_idem (bv av : Option Int) :
    bfI (match bfI bv av with | some v => some v | none => bv) av = none := by
  unfold bfI
  by_cases h : (!truthyI bv && truthyI av) = true
  · have hav : truthyI av = true := (Bool.and_eq_true _ _ ▸ h).2
    rw [if_pos h]
    cases av with
    | none => simp [truthyI] at hav
    | some n => simp [hav]
  · rw [if_neg h]
    simp [h]

theorem bfAuthor_idem (bl al : List String) :
    bfAuthor ((bfAuthor bl al).getD bl) al = none := by
  unfold bfAuthor
  by_cases h : (bl.isEmpty && !al.isEmpty) = true
  · have hal : (!al.isEmpty) = true := (Bool.and_eq_true _ _ ▸ h).2
    rw [if_pos h]
    cases al with
    | nil => simp at hal
    | cons a as => simp
  · rw [if_neg h]
    simp [h]

theorem bfCategory_idem (bl al : List String) :
    bfCategory ((bfCategory bl al).getD bl) al = none := by
  unfold bfCategory
  by_cases h : (bl.isEmpty && !al.isEmpty) = true
  · have hal : (!al.isEmpty) = true := (Bool.and_eq_true _ _ ▸ h).2
    rw [if_pos h]
    cases al with
    | nil => simp at hal
    | cons a as => simp
  · rw [if_neg h]
    simp [h]

theorem prepareUpdates_fields {b : Note} {api : Cand} {fs : String → Bool}
    {dl : Bool} {u : Updates} (h : prepareUpdates b api fs dl = .ok u) :
    u.title = bfO b.title api.title ∧
    u.subtitle = bfO b.subtitle api.subtitle ∧
    u.author = bfAuthor b.author api.authors ∧
    u.publisher = bfO b.publisher api.publisher ∧
    u.publish = bfO b.publish api.publishedDate ∧
    u.total = bfI b.total api.pageCount ∧
    u.isbn = bfO b.isbn api.isbn ∧
    u.cover = bfO b.cover api.coverUrl ∧
    u.category = bfCategory b.category api.categories ∧
    localCoverField b api fs dl = .ok u.localCover := by
  cases hlc : localCoverField b api fs dl with
  | error e =>
    rw [prepareUpdates, hlc] at h
    simp only [bind, Except.bind] at h
    exact Except.noConfusion h
  | ok lc =>
    rw [prepareUpdates, hlc] at h
    simp only [bind, Except.bind, pure, Except.pure] at h
    cases h
    simp

/-!
## Concrete instances used by counterexamples and witnesses
-/

/-- A candidate whose ISBN is hyphen-separated (as Open Library can return). -/
def hyIsbnCand : Cand :=
  { title := some "Dune", authors := ["Frank Herbert"],
    isbn := some "978-0-441-01359-3", publishedDate := some "1990" }

/-- The same work with a bare ISBN-13. -/
def bareIsbnCand : Cand :=
  { title := some "Dune", authors := ["Frank Herbert"],
    isbn := some "9780441013593", publishedDate := some "1965" }

/-- A candidate with a space-separated ISBN that strips to the bare form. -/
def spacedIsbnCand : Cand :=
  { title := some "Dune Again", authors := ["Frank Herbert"],
    isbn := some "978 0441013593", publishedDate := some "1970" }

/-- A candidate with no ISBN (stored Python `None`). -/
def noIsbnCand : Cand :=
  { title := some "Dune", authors := ["Frank Herbert"], isbn := none }

/-- A candidate with an ISBN but an empty authors list. -/
def noAuthorCand : Cand :=
  { title := some "Dune", authors := [], isbn := some "9780441013593" }

/-!
## C1
-/

/-- C1, counterexample: the dedup key strips only commas and spaces, so the
ISBNs `"978-0-441-01359-3"` and `"9780441013593"` — the same number in
different separator formatting — get different keys and the Deduplicator
retains both records instead of collapsing them to the first-seen one. -/
theorem hyphen_isbn_not_collapsed :
    dedup [hyIsbnCand, bareIsbnCand] = .ok [hyIsbnCand, bareIsbnCand] ∧
    dedupKeyE hyIsbnCand ≠ dedupKeyE bareIsbnCand := by decide

/-- C1, amended: the dedup key for a candidate with an ISBN is the ISBN
with commas and spaces (not hyphens) stripped; two candidates whose ISBNs
agree after that stripping share the key, and the Deduplicator retains
exactly the first-seen of them, dropping the later one (and every later
key-sharing record). -/
theorem dedup_comma_space_first_seen (A B : Cand) (rest : List Cand)
    (k ta tb : String) (out : List Cand)
    (hA : isbnKeyE A = .ok k) (hB : isbnKeyE B = .ok k) (hk : k ≠ "")
    (hta : titleKeyE A = .ok ta) (htb : titleKeyE B = .ok tb)
    (hAB : A ≠ B)
    (hout : dedup (A :: B :: rest) = .ok out) :
    out.head? = some A ∧ A ∈ out ∧ B ∉ out := by
  have hkeyA : dedupKeyE A = .ok k := by
    rw [dedupKeyE, hA, hta]
    simp [bind, Except.bind, pure, Except.pure, hk]
  have hkeyB : dedupKeyE B = .ok k := by
    rw [dedupKeyE, hB, htb]
    simp [bind, Except.bind, pure, Except.pure, hk]
  rw [dedup, dedupAux, hkeyA] at hout
  simp only [bind, Except.bind] at hout
  have hcond : (decide (k ≠ "") && !(([] : List String).contains k)) = true := by
    simp [hk]
  rw [if_pos hcond] at hout
  cases hrest : dedupAux (B :: rest) [k] with
  | error e => rw [hrest] at hout; exact Except.noConfusion hout
  | ok out' =>
    rw [hrest] at hout
    simp only [bind, Except.bind, pure, Except.pure] at hout
    cases hout
    refine ⟨rfl, List.mem_cons_self _ _, ?_⟩
    intro hmem
    rcases List.mem_cons.mp hmem with rfl | hmem
    · exact hAB rfl
    · exact dedupAux_key_not_seen (B :: rest) [k] out'
        (List.mem_singleton.mpr rfl) hrest B hmem hkeyB

/-- C1, witness for the amended theorem at the concrete space-formatted
pair: `"978 0441013593"` and `"9780441013593"` share the stripped key and
only the first-seen record survives. -/
theorem dedup_comma_space_first_seen_witness :
    dedup [spacedIsbnCand, bareIsbnCand] = .ok [spacedIsbnCand] ∧
    ([spacedIsbnCand].head? = some spacedIsbnCand ∧
      spacedIsbnCand ∈ [spacedIsbnCand] ∧ bareIsbnCand ∉ [spacedIsbnCand]) :=
  ⟨by decide,
    dedup_comma_space_first_seen spacedIsbnCand bareIsbnCand []
      "9780441013593" "dune again_frank herbert" "dune_frank herbert"
      [spacedIsbnCand] (by decide) (by decide) (by decide) (by decide)
      (by decide) (by decide) (by decide)⟩

/-!
## C2
-/

/-- C2 (code bug): dedup-key computation is not total.  For a candidate
without an ISBN the stored `None` flows out of `result.get('isbn', '')`
(the default applies only to an absent key) and `.replace` raises
`AttributeError`; for a candidate with an empty authors list the
`result.get('authors', [''])[0]` indexing raises `IndexError`.  Both
exceptions escape the deduplication step instead of producing the fallback
key the claim (and the `get` defaults' evident intent) describe. -/
theorem dedup_key_raises_on_missing_isbn_or_authors :
    dedupKeyE noIsbnCand = .error .attributeError ∧
    dedupKeyE noAuthorCand = .error .indexError ∧
    dedup [noIsbnCand] = .error .attributeError ∧
    dedup [noAuthorCand] = .error .indexError := by decide

/-!
## C3
-/

/-- C3, counterexample: with both identifier variants present the adapter
stores `"{isbn_10}, {isbn_13}"` — ISBN-10 first — not ISBN-13 first as the
claim states. -/
theorem google_isbn_joins_isbn10_first_cex :
    googleIsbn [("ISBN_10", "0441013593"), ("ISBN_13", "9780441013593")]
      = some "0441013593, 9780441013593" ∧
    (some "0441013593, 9780441013593" : Option String)
      ≠ some ("9780441013593" ++ ", " ++ "0441013593") := by decide

/-- C3, amended: when both ISBN variants are available the canonical
record's isbn field carries both, comma-joined, with the ISBN-10 first;
when only one variant is available, that one is carried alone. -/
theorem google_isbn_join_order (a b : String) (ha : a ≠ "") (hb : b ≠ "") :
    googleIsbn [("ISBN_10", a), ("ISBN_13", b)] = some (a ++ ", " ++ b) ∧
    googleIsbn [("ISBN_13", b)] = some b ∧
    googleIsbn [("ISBN_10", a)] = some a := by
  have hae : a.isEmpty = false := by
    rw [Bool.eq_false_iff]
    intro hx
    exact ha ((String.isEmpty_iff a).mp hx)
  have hbe : b.isEmpty = false := by
    rw [Bool.eq_false_iff]
    intro hx
    exact hb ((String.isEmpty_iff b).mp hx)
  refine ⟨?_, ?_, ?_⟩ <;>
    simp [googleIsbn, extractIsbns, joinIsbns, truthyO, hae, hbe]

/-- C3, witness: the amended join at the concrete Dune identifiers. -/
theorem google_isbn_join_order_witness :
    ("0441013593" : String) ≠ "" ∧
    googleIsbn [("ISBN_10", "0441013593"), ("ISBN_13", "9780441013593")]
      = some ("0441013593" ++ ", " ++ "9780441013593") ∧
    googleIsbn [("ISBN_13", "9780441013593")] = some "9780441013593" ∧
    googleIsbn [("ISBN_10", "0441013593")] = some "0441013593" :=
  ⟨by decide,
    (google_isbn_join_order "0441013593" "9780441013593"
      (by decide) (by decide)).1,
    (google_isbn_join_order "0441013593" "9780441013593"
      (by decide) (by decide)).2.1,
    (google_isbn_join_order "0441013593" "9780441013593"
      (by decide) (by decide)).2.2⟩

/-!
## Concrete documents for C4/C5
-/

/-- An existing note that is complete except for the publisher, with a
valid local cover (the existence oracle below returns true for it). -/
def bookFull : Note :=
  { title := some "Dune", subtitle := some "A Novel",
    author := ["[[Frank Herbert]]"], category := ["Fiction"],
    publisher := none, publish := some "1965", total := some 412,
    isbn := some "9780441013593", cover := some "http://c",
    localCover := some "References/Attachments/Book Search Covers/Old.jpg" }

/-- A sparse existing note: only title and author are present. -/
def bookSparse : Note :=
  { title := some "Dune", author := ["[[Frank Herbert]]"] }

/-- A fully populated API candidate. -/
def apiFull : Cand :=
  { title := some "Dune", subtitle := some "A Novel",
    authors := ["Frank Herbert"], publisher := some "Chilton",
    publishedDate := some "1965", pageCount := some 412,
    categories := ["Fiction"], isbn := some "9780441013593",
    coverUrl := some "http://img" }

/-- The local cover path computed for `apiFull`. -/
def relDune : String :=
  "References/Attachments/Book Search Covers/Frank Herbert - Dune - 1965.jpg"

/-- The delta `prepareUpdates` produces for `bookFull` against `apiFull`. -/
def uC4 : Updates :=
  { publisher := some "Chilton", localCover := some relDune }

/-- The delta `prepareUpdates` produces for `bookSparse` against `apiFull`. -/
def uC5 : Updates :=
  { subtitle := some "A Novel", publisher := some "Chilton",
    publish := some "1965", total := some 412,
    isbn := some "9780441013593", cover := some "http://img",
    category := some ["Fiction"], localCover := some relDune }

/-!
## C4
-/

/-- C4, counterexample: `bookFull` has a present and valid local cover
(only the publisher is missing), yet the delta contains a `localCover`
entry — the code records the freshly computed cover path without ever
consulting the existing `localCover` field, so the non-destructive-merge
invariant fails for that field. -/
theorem local_cover_overwrites_valid_field_cex :
    truthyO bookFull.localCover = true ∧
    getMissingFields bookFull (fun _ => true) = ["publisher"] ∧
    prepareUpdates bookFull apiFull (fun _ => true) true = .ok uC4 ∧
    uC4.localCover = some relDune := by decide

/-- C4, amended: the non-destructive-merge invariant holds for every
backfillable field except the local cover path — a present (truthy)
existing value keeps the field out of the delta regardless of the
candidate — while `localCover` can enter the delta even when the existing
document's local cover is present and valid. -/
theorem backfill_nondestructive_except_local_cover (b : Note) (api : Cand)
    (fs : String → Bool) (dl : Bool) (u : Updates)
    (h : prepareUpdates b api fs dl = .ok u) :
    (truthyO b.title = true → u.title = none) ∧
    (truthyO b.subtitle = true → u.subtitle = none) ∧
    (b.author ≠ [] → u.author = none) ∧
    (truthyO b.publisher = true → u.publisher = none) ∧
    (truthyO b.publish = true → u.publish = none) ∧
    (truthyI b.total = true → u.total = none) ∧
    (truthyO b.isbn = true → u.isbn = none) ∧
    (truthyO b.cover = true → u.cover = none) ∧
    (b.category ≠ [] → u.category = none) := by
  obtain ⟨h1, h2, h3, h4, h5, h6, h7, h8, h9, _⟩ := prepareUpdates_fields h
  refine ⟨?_, ?_, ?_, ?_, ?_, ?_, ?_, ?_, ?_⟩
  · intro ht; rw [h1]; simp [bfO, ht]
  · intro ht; rw [h2]; simp [bfO, ht]
  · intro hne
    rw [h3]
    cases hb : b.author with
    | nil => exact absurd hb hne
    | cons x xs => simp [bfAuthor]
  · intro ht; rw [h4]; simp [bfO, ht]
  · intro ht; rw [h5]; simp [bfO, ht]
  · intro ht; rw [h6]; simp [bfI, ht]
  · intro ht; rw [h7]; simp [bfO, ht]
  · intro ht; rw [h8]; simp [bfO, ht]
  · intro hne
    rw [h9]
    cases hb : b.category with
    | nil => exact absurd hb hne
    | cons x xs => simp [bfCategory]

/-- C4, witness for the amended theorem at `bookFull`/`apiFull`. -/
theorem backfill_nondestructive_except_local_cover_witness :
    prepareUpdates bookFull apiFull (fun _ => true) true = .ok uC4 ∧
    ((truthyO bookFull.title = true → uC4.title = none) ∧
     (truthyO bookFull.subtitle = true → uC4.subtitle = none) ∧
     (bookFull.author ≠ [] → uC4.author = none) ∧
     (truthyO bookFull.publisher = true → uC4.publisher = none) ∧
     (truthyO bookFull.publish = true → uC4.publish = none) ∧
     (truthyI bookFull.total = true → uC4.total = none) ∧
     (truthyO bookFull.isbn = true → uC4.isbn = none) ∧
     (truthyO bookFull.cover = true → uC4.cover = none) ∧
     (bookFull.category ≠ [] → uC4.category = none)) :=
  ⟨by decide,
    backfill_nondestructive_except_local_cover bookFull apiFull
      (fun _ => true) true uC4 (by decide)⟩

/-!
## C5
-/

/-- C5, counterexample: after applying the first delta for
`bookSparse`/`apiFull` and running the backfill again against the same
candidate (with the cover file now on disk), the second delta is not
empty — the `localCover` field is offered a second time. -/
theorem backfill_reoffers_local_cover_cex :
    prepareUpdates bookSparse apiFull (fun _ => true) true = .ok uC5 ∧
    prepareUpdates (applyUpdates bookSparse uC5) apiFull (fun _ => true) true
      = .ok { localCover := some relDune } ∧
    ({ localCover := some relDune } : Updates) ≠ emptyUpdates := by decide

/-- C5, amended: backfill is idempotent for every field except the local
cover path: whatever delta a first run produces, a second run on the
updated document offers none of the nine guarded fields again (the
`localCover` entry alone can reappear). -/
theorem backfill_idem_except_local_cover (b : Note) (api : Cand)
    (fs fs2 : String → Bool) (dl dl2 : Bool) (u u2 : Updates)
    (h1 : prepareUpdates b api fs dl = .ok u)
    (h2 : prepareUpdates (applyUpdates b u) api fs2 dl2 = .ok u2) :
    u2.title = none ∧ u2.subtitle = none ∧ u2.author = none ∧
    u2.publisher = none ∧ u2.publish = none ∧ u2.total = none ∧
    u2.isbn = none ∧ u2.cover = none ∧ u2.category = none := by
  obtain ⟨a1, a2, a3, a4, a5, a6, a7, a8, a9, _⟩ := prepareUpdates_fields h1
  obtain ⟨c1, c2, c3, c4, c5, c6, c7, c8, c9, _⟩ := prepareUpdates_fields h2
  refine ⟨?_, ?_, ?_, ?_, ?_, ?_, ?_, ?_, ?_⟩
  · rw [c1]; show bfO (applyUpdates b u).title api.title = none
    simp only [applyUpdates, a1]
    exact bfO_idem b.title api.title
  · rw [c2]; show bfO (applyUpdates b u).subtitle api.subtitle = none
    simp only [applyUpdates, a2]
    exact bfO_idem b.subtitle api.subtitle
  · rw [c3]; show bfAuthor (applyUpdates b u).author api.authors = none
    simp only [applyUpdates, a3]
    exact bfAuthor_idem b.author api.authors
  · rw [c4]; show bfO (applyUpdates b u).publisher api.publisher = none
    simp only [applyUpdates, a4]
    exact bfO_idem b.publisher api.publisher
  · rw [c5]; show bfO (applyUpdates b u).publish api.publishedDate = none
    simp only [applyUpdates, a5]
    exact bfO_idem b.publish api.publishedDate
  · rw [c6]; show bfI (applyUpdates b u).total api.pageCount = none
    simp only [applyUpdates, a6]
    exact bfI_idem b.total api.pageCount
  · rw [c7]; show bfO (applyUpdates b u).isbn api.isbn = none
    simp only [applyUpdates, a7]
    exact bfO_idem b.isbn api.isbn
  · rw [c8]; show bfO (applyUpdates b u).cover api.coverUrl = none
    simp only [applyUpdates, a8]
    exact bfO_idem b.cover api.coverUrl
  · rw [c9]; show bfCategory (applyUpdates b u).category api.categories = none
    simp only [applyUpdates, a9]
    exact bfCategory_idem b.category api.categories

/-- C5, witness for the amended theorem at `bookSparse`/`apiFull`. -/
theorem backfill_idem_except_local_cover_witness :
    prepareUpdates bookSparse apiFull (fun _ => true) true = .ok uC5 ∧
    prepareUpdates (applyUpdates bookSparse uC5) apiFull (fun _ => true) true
      = .ok { localCover := some relDune } ∧
    (({ localCover := some relDune } : Updates).title = none ∧
     ({ localCover := some relDune } : Updates).subtitle = none ∧
     ({ localCover := some relDune } : Updates).author = none ∧
     ({ localCover := some relDune } : Updates).publisher = none ∧
     ({ localCover := some relDune } : Updates).publish = none ∧
     ({ localCover := some relDune } : Updates).total = none ∧
     ({ localCover := some relDune } : Updates).isbn = none ∧
     ({ localCover := some relDune } : Updates).cover = none ∧
     ({ localCover := some relDune } : Updates).category = none) :=
  ⟨by decide, by decide,
    backfill_idem_except_local_cover bookSparse apiFull
      (fun _ => true) (fun _ => true) true true uC5
      { localCover := some relDune } (by decide) (by decide)⟩

/-!
## C6
-/

theorem insD_perm (key : Cand → Int) (x : Cand) (l : List Cand) :
    (insD key x l).Perm (x :: l) := by
  induction l with
  | nil => simp [insD]
  | cons y ys ih =>
    simp only [insD]
    split
    · exact List.Perm.refl _
    · exact (ih.cons y).trans (List.Perm.swap x y ys)

theorem sortD_perm (key : Cand → Int) (l : List Cand) :
    (sortD key l).Perm l := by
  induction l with
  | nil => simp [sortD]
  | cons x xs ih =>
    simp only [sortD] at ih ⊢
    rw [List.foldr_cons]
    exact (insD_perm key x _).trans (ih.cons x)

/-- C6: the ranking stage computes exactly the reference score of the spec
(+100 exact title, else +50 substring either direction, +30 author
containment when the query author is non-empty, plus
`min(extractedYear - 1900, 25)` from the first 4-digit run, 0 when no year
parses), and returns the top 5 by that score: the output has exactly
`min 5 |l|` candidates, is sorted descending, splits the input into the
returned part and a dropped remainder in which every dropped candidate
scores no higher than every returned one, and ties keep the deduplicated
input order (the per-score sublists of the output are prefixes of the
input's). -/
theorem ranking_stage_matches_spec (qt qa : String) (l : List Cand)
    (hall : l.all (fun c => c.title.isSome) = true) :
    ∃ r, rankE qt qa l = .ok r ∧
      (∀ c ∈ l, relevanceScoreE qt qa c = .ok (specScore qt qa c)) ∧
      r.length = min 5 l.length ∧
      r.Pairwise (fun a b => specScore qt qa b ≤ specScore qt qa a) ∧
      (∀ k : Int, ∃ m,
        r.filter (fun c => specScore qt qa c == k)
          = (l.filter (fun c => specScore qt qa c == k)).take m) ∧
      ∃ rest, (r ++ rest).Perm l ∧
        ∀ c ∈ rest, ∀ b ∈ r, specScore qt qa c ≤ specScore qt qa b := by
  refine ⟨(sortD (scoreVal qt qa) l).take 5, by simp [rankE, hall],
    ?_, ?_, ?_, ?_, ?_⟩
  · intro c hc
    have hs : c.title.isSome = true := List.all_eq_true.mp hall c hc
    obtain ⟨bt, hbt⟩ := Option.isSome_iff_exists.mp hs
    rw [relevanceScoreE_ok qt qa hbt, scoreVal_eq_specScore]
  · rw [List.length_take, (sortD_perm (scoreVal qt qa) l).length_eq]
  · have hp := sortD_pairwise (scoreVal qt qa) l
    have hp5 : ((sortD (scoreVal qt qa) l).take 5).Pairwise
        (fun a b => scoreVal qt qa b ≤ scoreVal qt qa a) :=
      hp.sublist (List.take_sublist 5 _)
    exact hp5.imp (fun h => by
      rw [← scoreVal_eq_specScore, ← scoreVal_eq_specScore]; exact h)
  · intro k
    have hfun : (fun c => specScore qt qa c == k) = (fun c => scoreVal qt qa c == k) :=
      funext fun c => by rw [scoreVal_eq_specScore]
    rw [hfun]
    obtain ⟨m, hm⟩ :=
      filter_take_ex (fun c => scoreVal qt qa c == k) (sortD (scoreVal qt qa) l) 5
    exact ⟨m, by rw [hm, sortD_filter_eq]⟩
  · refine ⟨(sortD (scoreVal qt qa) l).drop 5, ?_, ?_⟩
    · rw [List.take_append_drop]
      exact sortD_perm (scoreVal qt qa) l
    · intro c hc b hb
      have hsplit : ((sortD (scoreVal qt qa) l).take 5
          ++ (sortD (scoreVal qt qa) l).drop 5).Pairwise
          (fun a b => scoreVal qt qa b ≤ scoreVal qt qa a) := by
        rw [List.take_append_drop]
        exact sortD_pairwise (scoreVal qt qa) l
      have hbound := (List.pairwise_append.mp hsplit).2.2 b hb c hc
      rw [← scoreVal_eq_specScore, ← scoreVal_eq_specScore]
      exact hbound

/-- C6, witness at the concrete Dune query and a two-candidate list. -/
theorem ranking_stage_matches_spec_witness :
    ([hyIsbnCand, bareIsbnCand].all (fun c => c.title.isSome)) = true ∧
    (∃ r, rankE "Dune" "Frank Herbert" [hyIsbnCand, bareIsbnCand] = .ok r ∧
      (∀ c ∈ [hyIsbnCand, bareIsbnCand],
        relevanceScoreE "Dune" "Frank Herbert" c
          = .ok (specScore "Dune" "Frank Herbert" c)) ∧
      r.length = min 5 ([hyIsbnCand, bareIsbnCand] : List Cand).length ∧
      r.Pairwise (fun a b =>
        specScore "Dune" "Frank Herbert" b ≤ specScore "Dune" "Frank Herbert" a) ∧
      (∀ k : Int, ∃ m,
        r.filter (fun c => specScore "Dune" "Frank Herbert" c == k)
          = ([hyIsbnCand, bareIsbnCand].filter
              (fun c => specScore "Dune" "Frank Herbert" c == k)).take m) ∧
      ∃ rest, (r ++ rest).Perm [hyIsbnCand, bareIsbnCand] ∧
        ∀ c ∈ rest, ∀ b ∈ r,
          specScore "Dune" "Frank Herbert" c ≤ specScore "Dune" "Frank Herbert" b) :=
  ⟨by decide,
    ranking_stage_matches_spec "Dune" "Frank Herbert"
      [hyIsbnCand, bareIsbnCand] (by decide)⟩

/-!
## C7
-/

/-- An exact-title candidate with an old (1850) publication date. -/
def cOldExact : Cand :=
  { title := some "Dune", authors := ["Frank Herbert"],
    publishedDate := some "1850", isbn := some "1111111111" }

/-- A partial-title candidate with a recent (2020) publication date. -/
def cRecentPartial : Cand :=
  { title := some "Dune Messiah", authors := ["Frank Herbert"],
    publishedDate := some "2020", isbn := some "2222222222" }

/-- C7, counterexample: for the shared query `("Dune", "")` the candidate
with the exact title match but an 1850 date scores 100 - 50 = 50, while
the partial match with a 2020 date scores 50 + 25 = 75, so the ranking
puts the partial match strictly above the exact match. -/
theorem old_exact_match_outranked_cex :
    pyLower (cOldExact.title.getD "") = pyLower "Dune" ∧
    pyLower (cRecentPartial.title.getD "") ≠ pyLower "Dune" ∧
    substrS (pyLower "Dune") (pyLower (cRecentPartial.title.getD "")) = true ∧
    scoreVal "Dune" "" cOldExact < scoreVal "Dune" "" cRecentPartial ∧
    rankE "Dune" "" [cOldExact, cRecentPartial]
      = .ok [cRecentPartial, cOldExact] := by decide

/-- C7, amended: the exact-title candidate is ranked strictly above the
partial-title candidate provided both receive the same author bonus and
the exact candidate's year term is at least -24 (publication year 1876 or
later, or no parseable year); the year term can never exceed 25, so the 50
point title gap then decides. -/
theorem exact_title_outranks_partial_amended (qt qa : String) (cA cB : Cand)
    (hA : pyLower (cA.title.getD "") = pyLower qt)
    (hB : pyLower (cB.title.getD "") ≠ pyLower qt)
    (hAB : authorBonus qa cA = authorBonus qa cB)
    (hyA : -24 ≤ yearTerm cA.publishedDate) :
    scoreVal qt qa cB < scoreVal qt qa cA ∧
    sortD (scoreVal qt qa) [cB, cA] = [cA, cB] := by
  have hlt : scoreVal qt qa cB < scoreVal qt qa cA := by
    have htA : titleTerm qt (cA.title.getD "") = 100 := by
      unfold titleTerm
      rw [if_pos hA]
    have htB : titleTerm qt (cB.title.getD "") ≤ 50 := titleTerm_le_50_of_ne hB
    have hyB : yearTerm cB.publishedDate ≤ 25 := yearTerm_le_25 _
    unfold scoreVal
    rw [htA, ← hAB]
    omega
  refine ⟨hlt, ?_⟩
  simp only [sortD, List.foldr, insD]
  rw [if_neg (not_le.mpr hlt)]

/-- C7, witness for the amended theorem: exact match from 1990 versus
partial match from 2020, empty query author. -/
theorem exact_title_outranks_partial_amended_witness :
    pyLower (bareIsbnCand.title.getD "") = pyLower "Dune" ∧
    pyLower (cRecentPartial.title.getD "") ≠ pyLower "Dune" ∧
    authorBonus "" bareIsbnCand = authorBonus "" cRecentPartial ∧
    -24 ≤ yearTerm bareIsbnCand.publishedDate ∧
    (scoreVal "Dune" "" cRecentPartial < scoreVal "Dune" "" bareIsbnCand ∧
      sortD (scoreVal "Dune" "") [cRecentPartial, bareIsbnCand]
        = [bareIsbnCand, cRecentPartial]) :=
  ⟨by decide, by decide, by decide, by decide,
    exact_title_outranks_partial_amended "Dune" "" bareIsbnCand cRecentPartial
      (by decide) (by decide) (by decide) (by decide)⟩

/-!
## C8
-/

/-- C8, counterexample: in `create_book_note` the cover is downloaded
whenever a cover URL is present — one fetch call even though the target
path already exists — so cover acquisition is not idempotent on that code
path. -/
theorem creator_downloads_despite_existing_cover_cex :
    creatorAcquire (some "http://img") true true = (true, 1) ∧
    (creatorAcquire (some "http://img") true true).2 ≠ 0 := by decide

/-- C8, amended: the cleaner's cover acquisition (`BookNotesCleaner.run`)
is idempotent: when the target file exists it reports success immediately
with zero network fetches, whatever the downloader would do; the creator's
`create_book_note` path instead always fetches when a cover URL is
present. -/
theorem cleaner_cover_acquire_idempotent (dlOk : Bool) (url : String)
    (targetExists : Bool) :
    cleanerAcquire true dlOk = (true, 0) ∧
    (creatorAcquire (some url) targetExists dlOk).2
      = (if url.isEmpty then 0 else 1) := by
  constructor
  · rfl
  · unfold creatorAcquire truthyO
    cases hu : url.isEmpty <;> simp [hu]

/-!
## C9
-/

/-- The Google response used in the C9 counterexample. -/
def gResp : Cand := { title := some "Dune", authors := ["Frank Herbert"] }

/-- The Open Library response used in the C9 counterexample. -/
def oResp : Cand := { title := some "Dune", subtitle := some "OL edition" }

/-- C9, counterexample: `search_multiple_sources` appends results in
`as_completed` (completion) order, so the same adapter responses produce
differently ordered candidate lists depending on which task finishes
first. -/
theorem completion_order_changes_output_cex :
    searchMultipleSources (some gResp) (some oResp) true
      ≠ searchMultipleSources (some gResp) (some oResp) false := by decide

/-- C9, amended: the resolution path actually used,
`search_books_by_title_author`, accumulates raw candidates sequentially in
the fixed (variant, adapter) priority order — for every adapter response
assignment its output equals the spec's priority-ordered concatenation,
with no dependence on completion timing; only the unused concurrent helper
`search_multiple_sources` is completion-order dependent. -/
theorem sequential_fanout_priority_order (title author : String)
    (gmulti : String → List Cand) (ol : Option Cand) :
    rawResults title author gmulti ol
      = specOrderedResults title author gmulti ol := by
  simp [rawResults, specOrderedResults, searchTerms, List.foldl]

/-!
## C10
-/

/-- C10: `update_and_save` is atomic on error.  If the file content does
not begin with `---`, or the closing `---` is absent (the `str.index`
`ValueError`), or the YAML parse raises, the function returns `False` and
the on-disk content is unchanged — the only write is the final one on the
success path. -/
theorem update_and_save_atomic_on_failure {α : Type}
    (parse : String → Except Unit α) (render : α → String)
    (content : String) :
    (leadsWith "---".toList content.toList = false →
      updateAndSave parse render content = (false, content)) ∧
    (idxTripleDash content = none →
      updateAndSave parse render content = (false, content)) ∧
    (∀ i e, idxTripleDash content = some i →
      parse (fmSlice content i) = .error e →
      updateAndSave parse render content = (false, content)) := by
  refine ⟨?_, ?_, ?_⟩
  · intro h
    unfold updateAndSave
    rw [h]
    simp
  · intro h
    unfold updateAndSave
    rw [h]
    cases hl : leadsWith "---".toList content.toList <;> simp
  · intro i e hi hp
    unfold updateAndSave
    rw [hi]
    cases hl : leadsWith "---".toList content.toList
    · simp
    · simp [hp]

/-- C10, witness: content with no frontmatter marker is left unchanged and
the call reports failure. -/
theorem update_and_save_atomic_on_failure_witness :
    leadsWith "---".toList ("no frontmatter here" : String).toList = false ∧
    updateAndSave (fun _ => (Except.error () : Except Unit Unit))
        (fun _ => "") "no frontmatter here"
      = (false, "no frontmatter here") :=
  ⟨by decide,
    (update_and_save_atomic_on_failure
      (fun _ => (Except.error () : Except Unit Unit)) (fun _ => "")
      "no frontmatter here").1 (by decide)⟩
